import Mathlib

/-!
Verification of the ouxml-link-checker repository: the link-resolution and
archive-decision engine described in the specification, and the
screenshot-grabber notebook code.

The repository sources available here are the README (documenting
`check_multiple_links` and `archive_links`) and `screenshot_grabber.ipynb`.
The link-checker module itself is not among the source files, so its
operations are modelled from the specification; the notebook functions
(`webdriver_fetch`, `setup_screenshot`, `init_browser`, `getTableImage`)
are embedded directly from the notebook code.
-/

namespace OuxmlLinkChecker

/-- Mode of the archive policy engine: STANDARD archives only clean
successes, STRONG archives everything except explicitly excluded codes. -/
inductive ArchiveMode
  | STANDARD
  | STRONG
deriving DecidableEq, Repr

/-- One hop in resolving a URL, as described by the data model section of
the specification and the README example tuples. -/
structure LinkVerdict where
  requested_url : String
  ok : Bool
  resolved_url : String
  status_code : Option Nat
  reason : String
deriving DecidableEq, Repr

/-- Modelled from the spec: the pure archive-decision function
`should_archive` of the Archive Policy Engine; the implementing module
(`link_checker.py`, function `archive_links`) is not among the source
files. Status-code absent is never archived; an excluded code is always
refused; a non-empty include list decides membership; otherwise STANDARD
accepts [200,299] and STRONG accepts everything except 404. -/
def should_archive (v : LinkVerdict) (mode : ArchiveMode)
    (include_codes exclude_codes : List Nat) : Bool :=
  match v.status_code with
  | none => false
  | some code =>
    if code ∈ exclude_codes then
      false
    else if include_codes.isEmpty then
      match mode with
      | ArchiveMode.STANDARD => decide (200 ≤ code) && decide (code ≤ 299)
      | ArchiveMode.STRONG => decide (code ≠ 404)
    else
      decide (code ∈ include_codes)

/-- Helper: a final verdict carrying status 200, as in Scenario F. -/
def verdict200 : LinkVerdict :=
  { requested_url := "https://www.bbc.co.uk"
    ok := true
    resolved_url := "https://www.bbc.co.uk/"
    status_code := some 200
    reason := "OK" }

/-- Helper: a final verdict carrying status 404. -/
def verdict404 : LinkVerdict :=
  { requested_url := "https://www.open.ac.uk/dfhje"
    ok := false
    resolved_url := "https://www.open.ac.uk/dfhje"
    status_code := some 404
    reason := "Not Found" }

/-- Helper: a final verdict carrying status 500. -/
def verdict500 : LinkVerdict :=
  { requested_url := "https://example.org/err"
    ok := false
    resolved_url := "https://example.org/err"
    status_code := some 500
    reason := "Internal Server Error" }

/-- Helper: a transport-failure verdict with no status code. -/
def verdictNoCode : LinkVerdict :=
  { requested_url := "http://ww.open.ac.uk/dfhje"
    ok := false
    resolved_url := ""
    status_code := none
    reason := "Error resolving URL" }

/-- C1: whenever the final verdict carries a status code that is a member
of the exclude list, `should_archive` answers false for every mode and
every include list, even when the code is also a member of include. -/
theorem c1_exclusion_wins (v : LinkVerdict) (mode : ArchiveMode)
    (include_codes exclude_codes : List Nat) (code : Nat)
    (hv : v.status_code = some code) (hex : code ∈ exclude_codes) :
    should_archive v mode include_codes exclude_codes = false := by
  unfold should_archive
  rw [hv]
  simp [hex]

/-- C1 witness: Scenario F, exclude [200], include [200, 404], status 200;
exclusion wins despite inclusion. -/
theorem c1_exclusion_wins_witness :
    should_archive verdict200 ArchiveMode.STANDARD [200, 404] [200] = false :=
  c1_exclusion_wins verdict200 ArchiveMode.STANDARD [200, 404] [200] 200
    (by rfl) (by decide)

/-- C2: with a present status code not in the exclude list and an empty
include list, STANDARD mode archives exactly the codes in [200,299] and
STRONG mode archives exactly the codes other than 404. -/
theorem c2_default_rules (v : LinkVerdict) (exclude_codes : List Nat)
    (code : Nat) (hv : v.status_code = some code)
    (hex : code ∉ exclude_codes) :
    (should_archive v ArchiveMode.STANDARD [] exclude_codes = true ↔
      200 ≤ code ∧ code ≤ 299) ∧
    (should_archive v ArchiveMode.STRONG [] exclude_codes = true ↔
      code ≠ 404) := by
  unfold should_archive
  rw [hv]
  simp [hex]

/-- C2 witness: code 500 with empty include and exclude lists; STANDARD
refuses it and STRONG accepts it. -/
theorem c2_default_rules_witness :
    should_archive verdict500 ArchiveMode.STRONG [] [] = true ∧
    should_archive verdict500 ArchiveMode.STANDARD [] [] = false := by
  have h := c2_default_rules verdict500 [] 500 (by rfl) (by decide)
  refine ⟨h.2.mpr (by decide), ?_⟩
  have h2 := h.1
  cases hq : should_archive verdict500 ArchiveMode.STANDARD [] [] with
  | false => rfl
  | true => exact absurd (h2.mp hq).2 (by decide)

/-- C3: with a present status code not in the exclude list and a
non-empty include list, the decision is exactly membership of the code in
the include list, for every mode. -/
theorem c3_include_membership (v : LinkVerdict) (mode : ArchiveMode)
    (include_codes exclude_codes : List Nat) (code : Nat)
    (hv : v.status_code = some code) (hex : code ∉ exclude_codes)
    (hinc : include_codes ≠ []) :
    (should_archive v mode include_codes exclude_codes = true ↔
      code ∈ include_codes) := by
  unfold should_archive
  rw [hv]
  simp [hex, List.isEmpty_iff, hinc]

/-- C3 witness: include [404], exclude empty, status 404 in STANDARD
mode; the 404 is archived because it is included. -/
theorem c3_include_membership_witness :
    should_archive verdict404 ArchiveMode.STANDARD [404] [] = true :=
  (c3_include_membership verdict404 ArchiveMode.STANDARD [404] [] 404
    (by rfl) (by decide) (by decide)).mpr (by decide)

/-- C4: a final verdict with no status code (transport failure or
malformed URL) is never archived, for every mode and configuration. -/
theorem c4_absent_code_never_archived (v : LinkVerdict) (mode : ArchiveMode)
    (include_codes exclude_codes : List Nat)
    (hv : v.status_code = none) :
    should_archive v mode include_codes exclude_codes = false := by
  unfold should_archive
  rw [hv]

/-- C4 witness: the transport-failure verdict from the README example is
refused in STRONG mode even with an all-embracing include list. -/
theorem c4_absent_code_never_archived_witness :
    should_archive verdictNoCode ArchiveMode.STRONG [200, 404, 500] [] = false :=
  c4_absent_code_never_archived verdictNoCode ArchiveMode.STRONG
    [200, 404, 500] [] (by rfl)

/-- Outcome of one HTTP round trip as seen by the resolver: either a
response with a status and an optional redirect Location target, or a
failure below the HTTP layer (DNS, connect, timeout). -/
inductive NetworkOutcome
  | response (status : Nat) (location : Option String)
  | transportFailure
deriving DecidableEq, Repr

/-- Modelled from the spec: the raw HTTP request of the resolver; the
implementing module is not among the source files. A transport-level
failure surfaces as the error side, mirroring the exception the HTTP
library raises before any response is obtained. -/
def httpGet (net : String → NetworkOutcome) (url : String) :
    Except String (Nat × Option String) :=
  match net url with
  | NetworkOutcome.transportFailure => Except.error "Error resolving URL"
  | NetworkOutcome.response s loc => Except.ok (s, loc)

/-- A redirect response per the resolver contract: a 3xx status. -/
def isRedirect (s : Nat) : Bool :=
  decide (300 ≤ s) && decide (s ≤ 399)

/-- A success response per the resolver contract: status in [200,299]. -/
def isSuccess (s : Nat) : Bool :=
  decide (200 ≤ s) && decide (s ≤ 299)

/-- Standard reason phrase for an HTTP status, as used in the README
example output ("OK", "Not Found") and the spec. -/
def statusPhrase (s : Nat) : String :=
  if s = 200 then "OK"
  else if s = 301 then "Moved Permanently"
  else if s = 302 then "Found"
  else if s = 404 then "Not Found"
  else if s = 500 then "Internal Server Error"
  else "HTTP status " ++ toString s

/-- The single verdict recorded for a failure below the HTTP layer:
ok false, empty resolved URL, absent status code. -/
def transportVerdict (url : String) : LinkVerdict :=
  { requested_url := url
    ok := false
    resolved_url := ""
    status_code := none
    reason := "Error resolving URL" }

/-- The terminal verdict for a final (non-redirect) response: ok exactly
for a success status, resolved URL the one that answered. -/
def finalVerdict (url : String) (s : Nat) : LinkVerdict :=
  { requested_url := url
    ok := isSuccess s
    resolved_url := url
    status_code := some s
    reason := statusPhrase s }

/-- The hop verdict recorded for a followed redirect. -/
def redirectHop (url target : String) (s : Nat) : LinkVerdict :=
  { requested_url := url
    ok := false
    resolved_url := target
    status_code := some s
    reason := statusPhrase s }

/-- The verdict terminating a chain that exceeded the redirect limit,
carrying the status code of the last hop. -/
def tooManyVerdict (url target : String) (s : Nat) : LinkVerdict :=
  { requested_url := url
    ok := false
    resolved_url := target
    status_code := some s
    reason := "Too many redirects" }

/-- Modelled from the spec: the Link Resolver, with the remaining redirect
allowance as first argument; the implementing module is not among the
source files. A transport failure yields exactly one code-less verdict; a
redirect appends a hop verdict and follows the Location target while the
allowance lasts, ending in a "Too many redirects" verdict once exceeded;
a final response yields a terminal verdict with the status phrase. -/
def resolveAux (net : String → NetworkOutcome) :
    Nat → String → List LinkVerdict
  | 0, url =>
    match httpGet net url with
    | Except.error _ => [transportVerdict url]
    | Except.ok (s, loc) =>
      match loc with
      | some target =>
        if isRedirect s then [tooManyVerdict url target s]
        else [finalVerdict url s]
      | none => [finalVerdict url s]
  | fuel + 1, url =>
    match httpGet net url with
    | Except.error _ => [transportVerdict url]
    | Except.ok (s, loc) =>
      match loc with
      | some target =>
        if isRedirect s then
          redirectHop url target s :: resolveAux net fuel target
        else [finalVerdict url s]
      | none => [finalVerdict url s]

/-- Modelled from the spec: `resolve(url, max_redirects)` of the Link
Resolver, abstracted over the network behaviour. -/
def resolve (net : String → NetworkOutcome) (url : String)
    (max_redirects : Nat) : List LinkVerdict :=
  resolveAux net max_redirects url

/-- Modelled from the spec: one batch-checker step for a single URL; the
implementing module (`check_multiple_links`) is not among the source
files. A URL the normalizer rejects is recorded as a single code-less
"Malformed URL" verdict; otherwise the normalized URL is resolved. -/
def malformedVerdict (url : String) : LinkVerdict :=
  { requested_url := url
    ok := false
    resolved_url := ""
    status_code := none
    reason := "Malformed URL" }

def check_one (net : String → NetworkOutcome)
    (normalize : String → Option String) (max_redirects : Nat)
    (url : String) : List LinkVerdict :=
  match normalize url with
  | none => [malformedVerdict url]
  | some nurl => resolveAux net max_redirects nurl

/-- Modelled from the spec: the Batch Checker `check_all`
(`check_multiple_links` in the README), producing a mapping from each
distinct input URL to its full verdict chain; a URL already bound further
on is not checked again. -/
def check_all (net : String → NetworkOutcome)
    (normalize : String → Option String) (max_redirects : Nat) :
    List String → List (String × List LinkVerdict)
  | [] => []
  | u :: rest =>
    if u ∈ rest then
      check_all net normalize max_redirects rest
    else
      (u, check_one net normalize max_redirects u) ::
        check_all net normalize max_redirects rest

/-- A reason string classifies a verdict as a transport-level failure when
it is the resolver transport phrase or the normalizer rejection phrase. -/
def transportReason (r : String) : Prop :=
  r = "Error resolving URL" ∨ r = "Malformed URL"

theorem httpStatusString_ne (t r : String) (hr : r.data.head? ≠ some 'H') :
    "HTTP status " ++ t ≠ r := by
  intro h
  have hd : ("HTTP status " ++ t).data = r.data := congrArg String.data h
  rw [String.data_append] at hd
  have h2 := congrArg List.head? hd
  rw [List.head?_append_of_ne_nil] at h2
  · exact hr h2.symm
  · decide

theorem statusPhrase_not_transport (s : Nat) :
    ¬ transportReason (statusPhrase s) := by
  unfold statusPhrase transportReason
  split
  · decide
  split
  · decide
  split
  · decide
  split
  · decide
  split
  · decide
  rintro (h | h)
  · exact httpStatusString_ne (toString s) "Error resolving URL" (by decide) h
  · exact httpStatusString_ne (toString s) "Malformed URL" (by decide) h

theorem transportVerdict_code_iff (url : String) :
    (transportVerdict url).status_code = none ↔
      transportReason (transportVerdict url).reason := by
  simp [transportVerdict, transportReason]

theorem malformedVerdict_code_iff (url : String) :
    (malformedVerdict url).status_code = none ↔
      transportReason (malformedVerdict url).reason := by
  simp [malformedVerdict, transportReason]

theorem finalVerdict_code_iff (url : String) (s : Nat) :
    (finalVerdict url s).status_code = none ↔
      transportReason (finalVerdict url s).reason := by
  simp only [finalVerdict]
  constructor
  · intro h; exact absurd h (by simp)
  · intro h; exact absurd h (statusPhrase_not_transport s)

theorem redirectHop_code_iff (url target : String) (s : Nat) :
    (redirectHop url target s).status_code = none ↔
      transportReason (redirectHop url target s).reason := by
  simp only [redirectHop]
  constructor
  · intro h; exact absurd h (by simp)
  · intro h; exact absurd h (statusPhrase_not_transport s)

theorem tooManyVerdict_code_iff (url target : String) (s : Nat) :
    (tooManyVerdict url target s).status_code = none ↔
      transportReason (tooManyVerdict url target s).reason := by
  simp only [tooManyVerdict]
  constructor
  · intro h; exact absurd h (by simp)
  · intro h
    unfold transportReason at h
    exact absurd h (by decide)

theorem resolveAux_code_iff (net : String → NetworkOutcome)
    (fuel : Nat) :
    ∀ (url : String) (v : LinkVerdict),
      v ∈ resolveAux net fuel url →
      (v.status_code = none ↔ transportReason v.reason) := by
  induction fuel with
  | zero =>
    intro url v hv
    cases hnet : net url with
    | transportFailure =>
      simp only [resolveAux, httpGet, hnet, List.mem_singleton] at hv
      subst hv
      exact transportVerdict_code_iff url
    | response s loc =>
      cases loc with
      | none =>
        simp only [resolveAux, httpGet, hnet, List.mem_singleton] at hv
        subst hv
        exact finalVerdict_code_iff url s
      | some target =>
        simp only [resolveAux, httpGet, hnet] at hv
        by_cases hr : isRedirect s
        · rw [if_pos hr] at hv
          simp only [List.mem_singleton] at hv
          subst hv
          exact tooManyVerdict_code_iff url target s
        · rw [if_neg hr] at hv
          simp only [List.mem_singleton] at hv
          subst hv
          exact finalVerdict_code_iff url s
  | succ f ih =>
    intro url v hv
    cases hnet : net url with
    | transportFailure =>
      simp only [resolveAux, httpGet, hnet, List.mem_singleton] at hv
      subst hv
      exact transportVerdict_code_iff url
    | response s loc =>
      cases loc with
      | none =>
        simp only [resolveAux, httpGet, hnet, List.mem_singleton] at hv
        subst hv
        exact finalVerdict_code_iff url s
      | some target =>
        simp only [resolveAux, httpGet, hnet] at hv
        by_cases hr : isRedirect s
        · rw [if_pos hr] at hv
          simp only [List.mem_cons] at hv
          cases hv with
          | inl hv =>
            subst hv
            exact redirectHop_code_iff url target s
          | inr hv => exact ih target v hv
        · rw [if_neg hr] at hv
          simp only [List.mem_singleton] at hv
          subst hv
          exact finalVerdict_code_iff url s

theorem check_one_code_iff (net : String → NetworkOutcome)
    (normalize : String → Option String) (mr : Nat) (url : String) :
    ∀ v ∈ check_one net normalize mr url,
      (v.status_code = none ↔ transportReason v.reason) := by
  intro v hv
  cases hn : normalize url with
  | none =>
    simp only [check_one, hn, List.mem_singleton] at hv
    subst hv
    exact malformedVerdict_code_iff url
  | some nurl =>
    simp only [check_one, hn] at hv
    exact resolveAux_code_iff net mr nurl v hv

theorem check_all_chain_eq (net : String → NetworkOutcome)
    (normalize : String → Option String) (mr : Nat) :
    ∀ (urls : List String) (u : String) (chain : List LinkVerdict),
      (u, chain) ∈ check_all net normalize mr urls →
      chain = check_one net normalize mr u := by
  intro urls
  induction urls with
  | nil => intro u chain h; simp [check_all] at h
  | cons u' rest ih =>
    intro u chain h
    by_cases hmem : u' ∈ rest
    · simp only [check_all, if_pos hmem] at h
      exact ih u chain h
    · simp only [check_all, if_neg hmem, List.mem_cons] at h
      cases h with
      | inl h =>
        have h1 : u = u' := congrArg Prod.fst h
        have h2 : chain = check_one net normalize mr u' :=
          congrArg Prod.snd h
        rw [h1]
        exact h2
      | inr h => exact ih u chain h

theorem check_all_mem_keys (net : String → NetworkOutcome)
    (normalize : String → Option String) (mr : Nat) :
    ∀ (urls : List String) (u : String),
      u ∈ (check_all net normalize mr urls).map Prod.fst ↔ u ∈ urls := by
  intro urls
  induction urls with
  | nil => intro u; simp [check_all]
  | cons u' rest ih =>
    intro u
    by_cases hmem : u' ∈ rest
    · simp only [check_all, if_pos hmem, ih, List.mem_cons]
      constructor
      · exact Or.inr
      · rintro (h | h)
        · rw [h]; exact hmem
        · exact h
    · simp only [check_all, if_neg hmem, List.map_cons, List.mem_cons, ih]

theorem check_all_keys_nodup (net : String → NetworkOutcome)
    (normalize : String → Option String) (mr : Nat) :
    ∀ urls : List String,
      ((check_all net normalize mr urls).map Prod.fst).Nodup := by
  intro urls
  induction urls with
  | nil => simp [check_all]
  | cons u' rest ih =>
    by_cases hmem : u' ∈ rest
    · simp only [check_all, if_pos hmem]
      exact ih
    · simp only [check_all, if_neg hmem, List.map_cons, List.nodup_cons]
      refine ⟨?_, ih⟩
      rw [check_all_mem_keys net normalize mr rest u']
      exact hmem

theorem resolveAux_ne_nil (net : String → NetworkOutcome) (fuel : Nat)
    (url : String) : resolveAux net fuel url ≠ [] := by
  cases fuel with
  | zero =>
    cases hnet : net url with
    | transportFailure => simp [resolveAux, httpGet, hnet]
    | response s loc =>
      cases loc with
      | none => simp [resolveAux, httpGet, hnet]
      | some target =>
        simp only [resolveAux, httpGet, hnet]
        split <;> simp
  | succ f =>
    cases hnet : net url with
    | transportFailure => simp [resolveAux, httpGet, hnet]
    | response s loc =>
      cases loc with
      | none => simp [resolveAux, httpGet, hnet]
      | some target =>
        simp only [resolveAux, httpGet, hnet]
        split <;> simp

theorem check_one_ne_nil (net : String → NetworkOutcome)
    (normalize : String → Option String) (mr : Nat) (url : String) :
    check_one net normalize mr url ≠ [] := by
  cases hn : normalize url with
  | none => simp [check_one, hn]
  | some nurl =>
    simp only [check_one, hn]
    exact resolveAux_ne_nil net mr nurl

theorem check_all_exists_chain (net : String → NetworkOutcome)
    (normalize : String → Option String) (mr : Nat) :
    ∀ (urls : List String) (u : String), u ∈ urls →
      (u, check_one net normalize mr u) ∈ check_all net normalize mr urls := by
  intro urls
  induction urls with
  | nil => intro u h; exact absurd h (List.not_mem_nil u)
  | cons u' rest ih =>
    intro u h
    by_cases hmem : u' ∈ rest
    · simp only [check_all, if_pos hmem]
      rcases List.mem_cons.mp h with h1 | h1
      · exact ih u (h1 ▸ hmem)
      · exact ih u h1
    · simp only [check_all, if_neg hmem, List.mem_cons]
      rcases List.mem_cons.mp h with h1 | h1
      · exact Or.inl (by rw [h1])
      · exact Or.inr (ih u h1)

/-- C5: status code and failure layer agree everywhere. Every verdict the
resolver produces, and every verdict in any chain the batch checker
produces, has an absent status code exactly when its reason classifies it
as a failure below the HTTP layer (transport failure or malformed URL);
no verdict is both status-code-bearing and transport-classified. -/
theorem c5_code_absent_iff_transport (net : String → NetworkOutcome)
    (normalize : String → Option String) (fuel mr : Nat) (url : String)
    (urls : List String) :
    (∀ v ∈ resolve net url fuel,
      (v.status_code = none ↔ transportReason v.reason)) ∧
    (∀ u chain, (u, chain) ∈ check_all net normalize mr urls →
      ∀ v ∈ chain, (v.status_code = none ↔ transportReason v.reason)) := by
  constructor
  · intro v hv
    exact resolveAux_code_iff net fuel url v hv
  · intro u chain hc v hv
    rw [check_all_chain_eq net normalize mr urls u chain hc] at hv
    exact check_one_code_iff net normalize mr u v hv

/-- Network behaviour used by the concrete witnesses: every URL fails at
the transport level. -/
def netDown : String → NetworkOutcome :=
  fun _ => NetworkOutcome.transportFailure

/-- Normalizer used by the concrete witnesses: accepts any URL as is. -/
def normId : String → Option String :=
  fun u => some u

/-- C5 witness: on a network where every request fails at transport
level, the verdict for a concrete URL has no status code and a
transport-classifying reason. -/
theorem c5_code_absent_iff_transport_witness :
    (transportVerdict "http://ww.open.ac.uk/dfhje").status_code = none ↔
      transportReason (transportVerdict "http://ww.open.ac.uk/dfhje").reason :=
  (c5_code_absent_iff_transport netDown normId 3 3
      "http://ww.open.ac.uk/dfhje" []).1
    (transportVerdict "http://ww.open.ac.uk/dfhje") (by decide)

/-- C6: the key set of the batch-checker mapping is exactly the set of
distinct input URLs, each key appears exactly once, and each key is bound
to its full verdict chain (the one checking that URL once produces). -/
theorem c6_check_all_keys (net : String → NetworkOutcome)
    (normalize : String → Option String) (mr : Nat) (urls : List String) :
    ((check_all net normalize mr urls).map Prod.fst).Nodup ∧
    (∀ u, u ∈ (check_all net normalize mr urls).map Prod.fst ↔ u ∈ urls) ∧
    (∀ u chain, (u, chain) ∈ check_all net normalize mr urls →
      chain = check_one net normalize mr u) :=
  ⟨check_all_keys_nodup net normalize mr urls,
   check_all_mem_keys net normalize mr urls,
   check_all_chain_eq net normalize mr urls⟩

/-- C6 witness: a concrete run with a duplicated URL; the duplicate is
collapsed to a single key bound to its chain. -/
theorem c6_check_all_keys_witness :
    ("a", check_one netDown normId 1 "a") ∈
        check_all netDown normId 1 ["a", "b", "a"] ∧
    check_one netDown normId 1 "a" = check_one netDown normId 1 "a" :=
  ⟨by decide,
   (c6_check_all_keys netDown normId 1 ["a", "b", "a"]).2.2 "a"
     (check_one netDown normId 1 "a") (by decide)⟩

/-- C7: failures are data, never escaping faults. The resolver always
returns a non-empty verdict chain; when the underlying HTTP request
fails at transport level it returns the single transport verdict rather
than propagating the error; and every input URL of a batch run receives
a non-empty chain in the result, so one failing URL never terminates the
batch. -/
theorem c7_failures_are_data (net : String → NetworkOutcome)
    (normalize : String → Option String) (fuel mr : Nat) (url : String)
    (urls : List String) :
    (resolve net url fuel ≠ []) ∧
    (httpGet net url = Except.error "Error resolving URL" →
      resolve net url fuel = [transportVerdict url]) ∧
    (∀ u ∈ urls, ∃ chain,
      (u, chain) ∈ check_all net normalize mr urls ∧ chain ≠ []) := by
  refine ⟨resolveAux_ne_nil net fuel url, ?_, ?_⟩
  · intro herr
    have hnet : net url = NetworkOutcome.transportFailure := by
      unfold httpGet at herr
      cases hn : net url with
      | transportFailure => rfl
      | response s loc => rw [hn] at herr; exact absurd herr (by simp)
    cases fuel with
    | zero => simp [resolve, resolveAux, httpGet, hnet]
    | succ f => simp [resolve, resolveAux, httpGet, hnet]
  · intro u hu
    exact ⟨check_one net normalize mr u,
      check_all_exists_chain net normalize mr urls u hu,
      check_one_ne_nil net normalize mr u⟩

/-- C7 witness: a concrete batch over a dead network still yields a
non-empty chain for its URL, and the resolver turns the transport error
into the single transport verdict. -/
theorem c7_failures_are_data_witness :
    resolve netDown "https://www.bbc.co.uk" 3 =
        [transportVerdict "https://www.bbc.co.uk"] ∧
    (∃ chain, ("a", chain) ∈ check_all netDown normId 1 ["a"] ∧
      chain ≠ []) :=
  ⟨(c7_failures_are_data netDown normId 3 1 "https://www.bbc.co.uk"
      ["a"]).2.1 (by rfl),
   (c7_failures_are_data netDown normId 3 1 "https://www.bbc.co.uk"
      ["a"]).2.2 "a" (by decide)⟩

/-- Effect of a `webdriver_fetch` call in the notebook: either a Chrome
webdriver was created, or an unsupported-browser message was printed. -/
inductive FetchAction
  | printUnsupported
  | createChromeDriver
deriving DecidableEq, Repr

/-- ASCII lowercase of a string, the behaviour of the Python lower()
method on the ASCII browser names involved. -/
def lowerStr (s : String) : String :=
  String.mk (s.data.map Char.toLower)

/-- The notebook's supported-browsers list. In the Python source the
list literal is written with adjacent string literals
`['firefox' 'chrome', 'ie', 'edge', 'chromium', 'opera']`, which the
language concatenates into one element, exactly as the append below. -/
def supported_browsers : List String :=
  (["firefox" ++ "chrome", "ie", "edge", "chromium", "opera"]).map lowerStr

theorem supported_browsers_eq :
    supported_browsers = ["firefoxchrome", "ie", "edge", "chromium", "opera"] := by
  decide

/-- The notebook function `webdriver_fetch`: lowercases its argument,
prints an unsupported-browser message when it is not in the list,
creates a Chrome driver when it equals "chrome", and otherwise prints
the unsupported-browser message again; the Python function has no
return statement, so the returned value (second component) is always
absent. -/
def webdriver_fetch (browser : String) : FetchAction × Option Unit :=
  if lowerStr browser ∉ supported_browsers then
    (FetchAction.printUnsupported, none)
  else if lowerStr browser = "chrome" then
    (FetchAction.createChromeDriver, none)
  else
    (FetchAction.printUnsupported, none)

theorem webdriver_fetch_eq (browser : String) :
    webdriver_fetch browser = (FetchAction.printUnsupported, none) := by
  unfold webdriver_fetch
  by_cases h : lowerStr browser ∈ supported_browsers
  · have hne : lowerStr browser ≠ "chrome" := by
      rw [supported_browsers_eq] at h
      simp only [List.mem_cons, List.not_mem_nil, or_false] at h
      rcases h with h | h | h | h | h <;> (rw [h]; decide)
    rw [if_neg (not_not_intro h), if_neg hne]
  · rw [if_pos h]

/-- C8: for every browser argument other than "chrome", including
"firefox", `webdriver_fetch` creates no webdriver and only prints the
unsupported-browser message, since the concatenated list element is
"firefoxchrome"; and for every input the function returns no value. -/
theorem c8_webdriver_fetch_unsupported (browser : String) :
    (browser ≠ "chrome" →
      (webdriver_fetch browser).1 = FetchAction.printUnsupported) ∧
    (webdriver_fetch browser).2 = none := by
  constructor
  · intro _
    rw [webdriver_fetch_eq browser]
  · rw [webdriver_fetch_eq browser]

/-- C8 witness: the "firefox" argument, which is not "chrome", gets the
unsupported-browser message and no returned value. -/
theorem c8_webdriver_fetch_unsupported_witness :
    ("firefox" : String) ≠ "chrome" ∧
    (webdriver_fetch "firefox").1 = FetchAction.printUnsupported ∧
    (webdriver_fetch "firefox").2 = none :=
  ⟨by decide,
   (c8_webdriver_fetch_unsupported "firefox").1 (by decide),
   (c8_webdriver_fetch_unsupported "firefox").2⟩

/-- State of a selenium driver as far as the notebook's
`setup_screenshot` touches it: current window size, the page's full
scroll dimensions (read through execute_script), the screenshots taken,
and the history of sizes passed to set_window_size. -/
structure Driver where
  windowWidth : Nat
  windowHeight : Nat
  scrollWidth : Nat
  scrollHeight : Nat
  screenshots : List String
  sizeHistory : List (Nat × Nat)
deriving DecidableEq, Repr

/-- The driver call get_window_size, returning width and height. -/
def get_window_size (d : Driver) : Nat × Nat :=
  (d.windowWidth, d.windowHeight)

/-- The driver call set_window_size; the history records each resize. -/
def set_window_size (d : Driver) (w h : Nat) : Driver :=
  { d with
    windowWidth := w
    windowHeight := h
    sizeHistory := d.sizeHistory ++ [(w, h)] }

/-- The screenshot call on the body element, saving to the given path. -/
def body_screenshot (d : Driver) (path : String) : Driver :=
  { d with screenshots := d.screenshots ++ [path] }

/-- The notebook function `setup_screenshot`: record the original window
size, read the full scroll dimensions, resize to them, screenshot the
body element, and restore the recorded original width and height. -/
def setup_screenshot (d : Driver) (path : String) : Driver :=
  let original_size := get_window_size d
  let required_width := d.scrollWidth
  let required_height := d.scrollHeight
  let d1 := set_window_size d required_width required_height
  let d2 := body_screenshot d1 path
  set_window_size d2 original_size.1 original_size.2

/-- C9: `setup_screenshot` leaves the window size unchanged overall: it
resizes to the full scroll dimensions to take the screenshot and then
restores the width and height recorded at entry, as the resize history
and the final size show. -/
theorem c9_setup_screenshot_restores (d : Driver) (path : String) :
    (setup_screenshot d path).windowWidth = d.windowWidth ∧
    (setup_screenshot d path).windowHeight = d.windowHeight ∧
    (setup_screenshot d path).sizeHistory =
      d.sizeHistory ++
        [(d.scrollWidth, d.scrollHeight), (d.windowWidth, d.windowHeight)] ∧
    (setup_screenshot d path).screenshots = d.screenshots ++ [path] := by
  refine ⟨rfl, rfl, ?_, rfl⟩
  simp [setup_screenshot, set_window_size, body_screenshot, get_window_size]

/-- The browser flavour chosen by the notebook's `init_browser`. -/
inductive BrowserType
  | chrome
  | firefox
deriving DecidableEq, Repr

/-- A browser instance as created by `init_browser`. -/
structure Browser where
  btype : BrowserType
  headless : Bool
deriving DecidableEq, Repr

/-- The notebook function `init_browser`: builds a Chrome or Firefox
instance with the requested headless option. -/
def init_browser (headless : Bool) (browser_type : BrowserType) : Browser :=
  match browser_type with
  | BrowserType.chrome => { btype := BrowserType.chrome, headless := headless }
  | BrowserType.firefox => { btype := BrowserType.firefox, headless := headless }

/-- One observable step of the notebook's `getTableImage` run. -/
inductive BEvent
  | initBrowserEvent
  | navigate (url : String)
  | sleep (seconds : Nat)
  | screenshot (path : String)
  | quitBrowser
  | removeFile (path : String)
deriving DecidableEq, Repr

/-- The notebook function `getTableImage`: when no browser is supplied it
creates its own and remembers to reset it; it loads the URL, optionally
sleeps, screenshots to the computed image file, quits the browser only
when it created it, removes the html twin of the image file, and
returns the image path. -/
def getTableImage (cwd url fn basepath path : String) (delay : Option Nat)
    (browser : Option Browser) : String × List BEvent :=
  let start :=
    match browser with
    | none => (true, [BEvent.initBrowserEvent])
    | some _ => (false, ([] : List BEvent))
  let reset_browser := start.1
  let ev1 := start.2 ++ [BEvent.navigate url]
  let ev2 :=
    match delay with
    | some d => ev1 ++ [BEvent.sleep d]
    | none => ev1
  let imgpath := path ++ "/" ++ fn ++ ".png"
  let imgfn := basepath ++ "/" ++ imgpath
  let imgfile := cwd ++ "/" ++ imgfn
  let ev3 := ev2 ++ [BEvent.screenshot imgfile]
  let ev4 := if reset_browser then ev3 ++ [BEvent.quitBrowser] else ev3
  let ev5 := ev4 ++ [BEvent.removeFile (imgfile.replace ".png" ".html")]
  (imgpath, ev5)

/-- C10: `getTableImage` quits the browser exactly when the caller did
not supply one; a caller-supplied browser instance is never quit. -/
theorem c10_getTableImage_quit_iff (cwd url fn basepath path : String)
    (delay : Option Nat) (browser : Option Browser) :
    BEvent.quitBrowser ∈
        (getTableImage cwd url fn basepath path delay browser).2 ↔
      browser = none := by
  cases browser <;> cases delay <;>
    simp [getTableImage]

end OuxmlLinkChecker
